import Mathlib

set_option maxRecDepth 20000

/-!
# Expiration mailer (cmd/expiration-mailer/main.go)

A shallow embedding of `mailer.findExpiringCertificates` and `mailer.sendWarning`.

* Instants (`time.Time`) are integers counting nanoseconds; durations (`time.Duration`) are
  64-bit signed nanosecond counts, so products wrap modulo `2^64`. The conversion of a
  duration to hours is computed in binary64 arithmetic, rounding to nearest, ties to even.
* The database is the `certificates` table (a list of rows) together with the
  `certificateStatus` table restricted to the one column the mailer reads and writes
  (`expirationNagsSent`, keyed by serial).
* The database layer (gorp) is modelled where the mailer depends on its behaviour: it expands
  the placeholders `:name` of a statement whose names are runs of word characters, its
  `Get` returns a pointer to the row (nil when there is none), and its `Update` takes
  pointers only.
* Everything else the mailer cannot control (failures of the connection, of the lookups,
  of the template, of the mail transport, of the steps of a transaction, the clock read
  inside `sendWarning`) is supplied by an environment `Env`.
* A run returns its outcome, the database it leaves and the trace of the external calls
  it made, in order.
-/

namespace ExpirationMailer

/-! ## Errors and outcomes -/

/-- Go `error` values that the mailer can observe. -/
inductive Err where
  /-- The value `sql.ErrNoRows`. -/
  | noRows
  /-- The value `sql.ErrTxDone`: the transaction was already committed or rolled back. -/
  | txDone
  /-- The database rejects the statement. -/
  | badStatement
  /-- The database layer was given a struct where it takes a pointer. -/
  | nonPointer
  /-- Any other error, identified by a code. -/
  | other (code : Nat)
  deriving DecidableEq, Repr

/-- How a call of `findExpiringCertificates` ends. -/
inductive Outcome where
  /-- The function returned `nil`. -/
  | ok
  /-- The function returned the error `e`. -/
  | error (e : Err)
  /-- A run-time panic (nil transaction handle or failed type assertion). -/
  | panic
  deriving DecidableEq, Repr

/-! ## Time -/

/-- The constant `time.Hour`, in nanoseconds. -/
def hour : Int := 3600000000000

/-- Largest `time.Duration` (`1<<63 - 1`). -/
def maxDuration : Int := 9223372036854775807

/-- Smallest `time.Duration` (`-1 << 63`). -/
def minDuration : Int := -9223372036854775808

/-- Wrap-around of a 64-bit signed integer (the complement representation of Go). -/
def wrap64 (x : Int) : Int :=
  (x + 9223372036854775808) % 18446744073709551616 - 9223372036854775808

/-- The expression `time.Hour * 24 * time.Duration(d)` (int64 multiplication). -/
def daysDuration (d : Int) : Int := wrap64 (hour * 24 * d)

/-- The method `Time.Add`. -/
def timeAdd (t d : Int) : Int := t + d

/-- The method `Time.Sub`: the difference `t - u`, saturated to the range of a duration. -/
def timeSub (t u : Int) : Int :=
  if t - u > maxDuration then maxDuration
  else if t - u < minDuration then minDuration
  else t - u

/-! ### Binary64 arithmetic

Finite `float64` values are written `mant * 2^exp`. Only what `Duration.Hours` and the
division by `24` need is modelled: conversion from integers, addition, division and the
conversion to `int`. All values that occur are far inside the normal range, so infinities,
NaN and subnormal numbers are left out. -/

/-- The fraction `num / den` rounded to the nearest integer, ties to the even one. -/
def roundHalfEven (num den : Nat) : Nat :=
  let q := num / den
  let r := num % den
  if 2 * r < den then q
  else if den < 2 * r then q + 1
  else if q % 2 = 0 then q else q + 1

/-- The power `2^k` for `k ≥ 0`, and `1` for `k < 0`. -/
def pow2 (k : Int) : Nat := 2 ^ k.toNat

/-- The integer part of the binary logarithm of `n` (and `0` for `n < 2`), by halving at
most `fuel` times. -/
def floorLog2 : Nat → Nat → Nat
  | 0, _ => 0
  | fuel + 1, n => if n < 2 then 0 else floorLog2 fuel (n / 2) + 1

/-- The exponent `e` with `2^e ≤ a / d < 2^(e+1)`, for positive `a` and `d` below
`2^256`. -/
def binade (a d : Nat) : Int :=
  let e0 : Int := (floorLog2 256 a : Int) - (floorLog2 256 d : Int)
  if d * pow2 e0 ≤ a * pow2 (-e0) then e0 else e0 - 1

/-- A finite binary64 number `mant * 2^exp`. -/
structure Float64 where
  mant : Int
  exp : Int
  deriving DecidableEq, Repr

/-- The binary64 number nearest to the fraction `n / d` (53 bits of precision, ties to
even). -/
def roundFloat64 (n : Int) (d : Nat) : Float64 :=
  if n = 0 ∨ d = 0 then ⟨0, 0⟩
  else
    let p := binade n.natAbs d - 52
    let m := roundHalfEven (n.natAbs * pow2 (-p)) (d * pow2 p)
    ⟨if n < 0 then -(m : Int) else (m : Int), p⟩

/-- Numerator of `x` written as a fraction of integers. -/
def Float64.num (x : Float64) : Int := x.mant * (pow2 x.exp : Int)

/-- Denominator of `x` written as a fraction of integers. -/
def Float64.den (x : Float64) : Nat := pow2 (-x.exp)

/-- The conversion `float64(n)`. -/
def Float64.ofInt (n : Int) : Float64 := roundFloat64 n 1

/-- The sum `x + y` in binary64. -/
def Float64.add (x y : Float64) : Float64 :=
  roundFloat64 (x.num * y.den + y.num * x.den) (x.den * y.den)

/-- The quotient `x / y` in binary64, for `y ≠ 0`. -/
def Float64.div (x y : Float64) : Float64 :=
  if y.num < 0 then roundFloat64 (-(x.num * y.den)) (x.den * y.num.natAbs)
  else roundFloat64 (x.num * y.den) (x.den * y.num.natAbs)

/-- The conversion `int(x)`, which truncates toward zero. -/
def Float64.toInt (x : Float64) : Int := Int.tdiv x.num x.den

/-- The method `Duration.Hours`:
`float64(d / Hour) + float64(d % Hour) / (60 * 60 * 1e9)`, with the truncating integer
division and remainder of Go. -/
def durationHours (d : Int) : Float64 :=
  (Float64.ofInt (Int.tdiv d hour)).add
    ((Float64.ofInt (Int.tmod d hour)).div (Float64.ofInt 3600000000000))

/-- The expression `int(d.Hours() / 24)`. -/
def hoursDiv24 (d : Int) : Int := ((durationHours d).div (Float64.ofInt 24)).toInt

/-! ## Data model -/

/-- A contact URI of a registration (`core.AcmeURL`): scheme and scheme-specific part. -/
structure Contact where
  scheme : String
  addr : String
  deriving DecidableEq, Repr

/-- A registration (`core.Registration`), reduced to its contact list. -/
structure Registration where
  contact : List Contact
  deriving DecidableEq, Repr

/-- The fields of a parsed `x509.Certificate` that the mailer reads. The serial number stands
for its rendering `core.SerialToString`, which is injective. -/
structure X509Certificate where
  serialNumber : Nat
  notAfter : Int
  commonName : String
  dnsNames : List String
  deriving DecidableEq, Repr

/-- A row of the `certificates` table (`core.Certificate`). The DER blob is represented by
what `x509.ParseCertificate` returns on it. -/
structure Certificate where
  registrationID : Int
  status : String
  serial : Nat
  der : Except Err X509Certificate
  expires : Int

/-- The database: the `certificates` rows and, for every serial that has a
`certificateStatus` row, its `expirationNagsSent` column. -/
structure DB where
  certificates : List Certificate
  certificateStatus : Nat → Option Int

/-- The struct `emailContent`. -/
structure EmailContent where
  expirationDate : Int
  daysToExpiration : Int
  commonName : String
  dnsNames : String
  deriving DecidableEq, Repr

/-- The steps of the state-update transaction. -/
inductive TxStep where
  | begin
  | get
  | update
  | commit
  deriving DecidableEq, Repr

/-- A Go interface value holding a row of type `α`, as the mailer receives and passes
them: nil, a pointer to the row, or the row itself. -/
inductive Object (α : Type) where
  | nil
  | pointer (row : α)
  | value (row : α)
  deriving DecidableEq, Repr

/-- The type assertion `obj.(T)` to the struct type `T` itself (not to `*T`): it yields the
row only when the interface value holds a `T`; otherwise the assertion panics. -/
def Object.assertValue {α : Type} : Object α → Option α
  | .value row => some row
  | .pointer _ => none
  | .nil => none

/-- What `Get` of the database layer returns, without error, for the result of the lookup:
a pointer to the row that was found, nil when no row has the key. -/
def fetched {α : Type} : Option α → Object α
  | some row => .pointer row
  | none => .nil

/-- The external calls made by the mailer, in the order they are made. -/
inductive Event where
  /-- Log line: searching for certificates that expire between `left` and `right`. -/
  | logSearching (left right : Int)
  /-- The window query `m.dbMap.Select` with its three parameters. -/
  | select (left right nags : Int)
  /-- Log line: none found. -/
  | logNoneFound
  /-- Log line: error loading certificates. -/
  | logErrLoading (e : Err)
  /-- Log line: found `k` certificates. -/
  | logFound (k : Nat)
  /-- Log line: finished sending messages. -/
  | logFinished
  /-- The registration lookup `m.dbMap.Get`. -/
  | getRegistration (id : Int)
  /-- The call `x509.ParseCertificate` on the row with this serial. -/
  | parseCertificate (serial : Nat)
  /-- The call of `m.sendWarning` in window `i` for the row with this serial. -/
  | sendWarning (i : Nat) (serial : Nat)
  /-- The call `m.EmailTemplate.Execute`. -/
  | execute (email : EmailContent)
  /-- The call `m.Mailer.SendMail`. -/
  | sendMail (emails : List String) (body : String)
  /-- The call `m.stats.Inc` on the counter of sent mails. -/
  | statsInc (n : Int)
  /-- The call `m.dbMap.Begin`. -/
  | txBegin
  /-- The call `tx.Get` of the status row. -/
  | txGet (serial : Nat)
  /-- The call `tx.Update` writing `nags` into the status row. -/
  | txUpdate (serial : Nat) (nags : Int)
  /-- The call `tx.Commit`. -/
  | txCommit
  /-- The call `tx.Rollback`. -/
  | txRollback
  deriving DecidableEq, Repr

/-- What the mailer does not control. Failures of the per-certificate calls are indexed by
the window index and the row being processed. -/
structure Env where
  /-- Error with which the connection fails the query of window `i`, if any. -/
  selectErr : Nat → Option Err
  /-- The registration lookup by id: an error, or the row with this id, if there is one. -/
  getRegistration : Int → Except Err (Option Registration)
  /-- Value of `time.Now()` read inside `sendWarning`. -/
  clock : Nat → Certificate → Int
  /-- Result of executing the e-mail template. -/
  execute : EmailContent → Except Err String
  /-- Error returned by the mail transport, if any. -/
  sendMail : List String → String → Option Err
  /-- Error injected into a step of the state-update transaction, if any. -/
  txFault : Nat → Certificate → TxStep → Option Err

/-- Result of a run (or of a part of it). -/
structure Result where
  outcome : Outcome
  db : DB
  events : List Event

/-- Put the events `evs` in front of the trace of `r`. -/
def Result.after (evs : List Event) (r : Result) : Result :=
  ⟨r.outcome, r.db, evs ++ r.events⟩

/-! ## The window query -/

/-- Left bound of window `i`: `now`, moved by `WarningDays[i-1]` days when `i > 0`. -/
def leftBound (now : Int) (warningDays : List Int) (i : Nat) : Int :=
  if i > 0 then timeAdd now (daysDuration (warningDays.getD (i - 1) 0)) else now

/-- Right bound of window `i`: `now` moved by `WarningDays[i]` days. -/
def rightBound (now : Int) (warningDays : List Int) (i : Nat) : Int :=
  timeAdd now (daysDuration (warningDays.getD i 0))

/-- The query parameter `nags`, that is `len(m.WarningDays) - i`. -/
def nagsParam (warningDays : List Int) (i : Nat) : Int :=
  (warningDays.length : Int) - (i : Int)

/-- The condition on the expiry in the `WHERE` clause:
`cert.expires > :cutoff-a AND cert.expires < :cutoff-b`. -/
def expiresInWindow (left right expires : Int) : Bool :=
  decide (expires > left) && decide (expires < right)

/-- The `WHERE` clause of the window query on a row joined with its status row:
the expiry condition, `cs.expirationNagsSent < :nags` and `cert.status != "revoked"`.
A row without status row is not in the join. -/
def matchesQuery (db : DB) (left right nags : Int) (cert : Certificate) : Bool :=
  match db.certificateStatus cert.serial with
  | none => false
  | some sent =>
    expiresInWindow left right cert.expires && decide (sent < nags)
      && (cert.status != "revoked")

/-- The rows that the window query describes, `ORDER BY cert.expires ASC`, were its three
parameters bound to `left`, `right` and `nags`. -/
def selectCertificates (db : DB) (left right nags : Int) : List Certificate :=
  (db.certificates.filter (matchesQuery db left right nags)).insertionSort
    (fun a b => a.expires ≤ b.expires)

/-- The rows that the query of window `i`, issued at time `now` on `db`, describes. -/
def windowCertificates (db : DB) (now : Int) (warningDays : List Int) (i : Nat) :
    List Certificate :=
  selectCertificates db (leftBound now warningDays i) (rightBound now warningDays i)
    (nagsParam warningDays i)

/-- The text of the statement passed to `m.dbMap.Select`. -/
def windowQuery : String :=
  "SELECT cert.* FROM certificates AS cert JOIN certificateStatus AS cs " ++
  "on cs.serial = cert.serial\n" ++
  "       WHERE cert.expires > :cutoff-a AND cert.expires < :cutoff-b " ++
  "AND cs.expirationNagsSent < :nags AND cert.status != \"revoked\"\n" ++
  "       ORDER BY cert.expires ASC"

/-- The keys of the parameter map passed to `m.dbMap.Select`. -/
def windowQueryKeys : List String := ["cutoff-a", "cutoff-b", "nags"]

/-- The characters of the class `[[:word:]]`: letters, digits and the underscore. -/
def isWordChar (c : Char) : Bool := c.isAlphanum || c == '_'

/-- The names of the placeholders of a statement as the database layer finds them: the
matches of `:[[:word:]]+`, from left to right. The first argument is the name being read
after a colon, if any. -/
def scanParameters : Option (List Char) → List Char → List String
  | none, [] => []
  | some name, [] => if name.isEmpty then [] else [String.mk name]
  | none, c :: cs => if c == ':' then scanParameters (some []) cs else scanParameters none cs
  | some name, c :: cs =>
    if isWordChar c then scanParameters (some (name ++ [c])) cs
    else if name.isEmpty then
      (if c == ':' then scanParameters (some []) cs else scanParameters none cs)
    else String.mk name ::
      (if c == ':' then scanParameters (some []) cs else scanParameters none cs)

/-- The names of the placeholders of the statement `query`. -/
def namedParameters (query : String) : List String := scanParameters none query.toList

/-- The placeholders of `query` whose name is not a key of the parameter map. The database
layer replaces the others by bind variables and leaves these in the statement. -/
def unboundParameters (query : String) (keys : List String) : List String :=
  (namedParameters query).filter (fun k => !keys.contains k)

/-- The call `m.dbMap.Select` of window `i`: the error of the connection, if it fails; the
error of the database when placeholders are left in the statement it receives; the rows
otherwise. -/
def windowQueryResult (env : Env) (db : DB) (now : Int) (warningDays : List Int) (i : Nat) :
    Except Err (List Certificate) :=
  match env.selectErr i with
  | some e => .error e
  | none =>
    if (unboundParameters windowQuery windowQueryKeys).isEmpty then
      .ok (windowCertificates db now warningDays i)
    else .error .badStatement

/-! ## The state-update transaction -/

/-- The update `certStatus.ExpirationNagsSent = nags` applied to the status row of `serial`. -/
def DB.setNags (db : DB) (serial : Nat) (nags : Int) : DB :=
  ⟨db.certificates,
   fun s => if s = serial then (db.certificateStatus s).map (fun _ => nags)
            else db.certificateStatus s⟩

/-- A transaction handle: whether it was committed or rolled back already, and the writes
made in it that are not committed yet. -/
structure Transaction where
  closed : Bool
  pending : List (Nat × Int)

/-- Modelled from the spec: `get(handle, serial)` of the transaction interface (the
database layer itself is not among the sources). It fails on a closed handle and on an
injected fault; otherwise it returns a pointer to the status row, or nil when the row is
missing. -/
def Transaction.get (tx : Transaction) (fault : Option Err) (db : DB) (serial : Nat) :
    Except Err (Object Int) :=
  if tx.closed then .error .txDone
  else match fault with
    | some e => .error e
    | none => .ok (fetched (db.certificateStatus serial))

/-- Modelled from the spec: `update(handle, serial, newCount)` of the transaction interface
(the database layer itself is not among the sources). It fails on a closed handle, on an
injected fault, and when it is given anything but a pointer to the row; otherwise the write
is pending until the commit. -/
def Transaction.update (tx : Transaction) (fault : Option Err) (row : Object Int)
    (serial : Nat) : Option Err × Transaction :=
  if tx.closed then (some .txDone, tx)
  else match fault with
    | some e => (some e, tx)
    | none =>
      match row with
      | .pointer nags => (none, ⟨false, tx.pending ++ [(serial, nags)]⟩)
      | _ => (some .nonPointer, tx)

/-- Modelled from the spec: `commit(handle)` of the transaction interface (the database
layer itself is not among the sources). It fails on a closed handle and on an injected
fault; otherwise the pending writes reach the database. -/
def Transaction.commit (tx : Transaction) (fault : Option Err) (db : DB) : Option Err × DB :=
  if tx.closed then (some .txDone, db)
  else match fault with
    | some e => (some e, db)
    | none => (none, tx.pending.foldl (fun d w => d.setNags w.1 w.2) db)

/-- Modelled from the spec: `rollback(handle)` of the transaction interface (the database
layer itself is not among the sources). The pending writes are discarded and the handle is
closed. -/
def Transaction.rollback (_tx : Transaction) : Transaction := ⟨true, []⟩

/-- The block under the comment `Update CertificateStatus object` of
`findExpiringCertificates`, for the row `cert` of window `i`:
`Begin`, `Get`, the type assertion, `Update` and `Commit`, each call followed by
`tx.Rollback()` when it fails, after which the code goes on with the next statement.

* When `Begin` fails the handle is nil and `tx.Rollback()` dereferences it: panic.
* When `Get` fails, `tx.Rollback()` is called and `csObj` is nil.
* The assertion `csObj.(core.CertificateStatus)` panics unless `csObj` holds the struct
  itself.
* `tx.Update(certStatus)` is given the struct, not a pointer to it. -/
def updateCertificateStatus (env : Env) (i : Nat) (cert : Certificate) (serial : Nat)
    (nags : Int) (db : DB) : Result :=
  match env.txFault i cert .begin with
  | some _ => ⟨.panic, db, [.txBegin, .txRollback]⟩
  | none =>
    let tx : Transaction := ⟨false, []⟩
    let g := tx.get (env.txFault i cert .get) db serial
    let csObj : Object Int := match g with
      | .ok obj => obj
      | .error _ => .nil
    let tx0 := match g with
      | .ok _ => tx
      | .error _ => tx.rollback
    let ev0 : List Event := match g with
      | .ok _ => []
      | .error _ => [.txRollback]
    match csObj.assertValue with
    | none => ⟨.panic, db, [.txBegin, .txGet serial] ++ ev0⟩
    | some _ =>
      let u := tx0.update (env.txFault i cert .update) (.value nags) serial
      let tx1 := if u.1.isSome then u.2.rollback else u.2
      let ev1 : List Event := if u.1.isSome then [.txRollback] else []
      let c := tx1.commit (env.txFault i cert .commit) db
      let ev2 : List Event := if c.1.isSome then [.txRollback] else []
      ⟨.ok, c.2,
        [.txBegin, .txGet serial] ++ ev0 ++ [.txUpdate serial nags] ++ ev1 ++ [.txCommit]
          ++ ev2⟩

/-! ## Dispatch -/

/-- The loop of `sendWarning` collecting the `Opaque` part of every `mailto` contact. -/
def mailtoAddresses (reg : Registration) : List String :=
  reg.contact.filterMap (fun c => if c.scheme = "mailto" then some c.addr else none)

/-- The expression `int(time.Now().Sub(parsedCert.NotAfter).Hours() / 24)`. -/
def expiresIn (now notAfter : Int) : Int := hoursDiv24 (timeSub now notAfter)

/-- The value of `email` built by `sendWarning`. -/
def emailFor (now : Int) (parsedCert : X509Certificate) : EmailContent :=
  ⟨parsedCert.notAfter, expiresIn now parsedCert.notAfter, parsedCert.commonName,
   String.intercalate ", " parsedCert.dnsNames⟩

/-- The function `mailer.sendWarning`; `now` is the value of `time.Now()` it reads. Returns the
error (if any) and the external calls made. -/
def sendWarning (env : Env) (now : Int) (parsedCert : X509Certificate) (reg : Registration) :
    Option Err × List Event :=
  let emails := mailtoAddresses reg
  if emails.length > 0 then
    let email := emailFor now parsedCert
    match env.execute email with
    | .error e => (some e, [.execute email])
    | .ok body =>
      match env.sendMail emails body with
      | some e => (some e, [.execute email, .sendMail emails body])
      | none => (none, [.execute email, .sendMail emails body, .statsInc emails.length])
  else (none, [])

/-! ## The run -/

/-- The body of the loop `for _, cert := range certs`, in window `i`. After a lookup that
returns no error, `regObj` is what `Get` returns, a pointer or nil, and the assertion
`regObj.(core.Registration)` is to the struct type. -/
def processCertificate (env : Env) (warningDays : List Int) (i : Nat) (cert : Certificate)
    (db : DB) : Result :=
  match env.getRegistration cert.registrationID with
  | .error e => ⟨.error e, db, [.getRegistration cert.registrationID]⟩
  | .ok row =>
    match (fetched row).assertValue with
    | none => ⟨.panic, db, [.getRegistration cert.registrationID]⟩
    | some reg =>
      match cert.der with
      | .error e =>
        ⟨.error e, db, [.getRegistration cert.registrationID, .parseCertificate cert.serial]⟩
      | .ok parsedCert =>
        let w := sendWarning env (env.clock i cert) parsedCert reg
        let evs : List Event :=
          [.getRegistration cert.registrationID, .parseCertificate cert.serial,
           .sendWarning i cert.serial] ++ w.2
        match w.1 with
        | some e => ⟨.error e, db, evs⟩
        | none =>
          (updateCertificateStatus env i cert parsedCert.serialNumber
            (nagsParam warningDays i) db).after evs

/-- The loop `for _, cert := range certs`, in window `i`: it stops at the first row whose
processing returns an error (or panics). -/
def processCertificates (env : Env) (warningDays : List Int) (i : Nat) :
    List Certificate → DB → Result
  | [], db => ⟨.ok, db, []⟩
  | cert :: rest, db =>
    let r := processCertificate env warningDays i cert db
    match r.outcome with
    | .ok => (processCertificates env warningDays i rest r.db).after r.events
    | _ => r

/-- The loop `for i, expiresIn := range m.WarningDays`, over the window indices `is` that
are still to be visited. After the last window the function returns the outer `err`, which
is never assigned (the loop declares its own `err`), hence `nil`. -/
def scanWindows (env : Env) (now : Int) (warningDays : List Int) : List Nat → DB → Result
  | [], db => ⟨.ok, db, []⟩
  | i :: rest, db =>
    let left := leftBound now warningDays i
    let right := rightBound now warningDays i
    let nags := nagsParam warningDays i
    let query : List Event := [.logSearching left right, .select left right nags]
    match windowQueryResult env db now warningDays i with
    | .error .noRows =>
      (scanWindows env now warningDays rest db).after (query ++ [.logNoneFound])
    | .error e =>
      (scanWindows env now warningDays rest db).after (query ++ [.logErrLoading e])
    | .ok certs =>
      let r := processCertificates env warningDays i certs db
      match r.outcome with
      | .ok =>
        (scanWindows env now warningDays rest r.db).after
          (query ++ [.logFound certs.length] ++ r.events ++ [.logFinished])
      | _ => r.after (query ++ [.logFound certs.length])

/-- The function `mailer.findExpiringCertificates`; `now` is the value of `time.Now()` read
at its start. -/
def findExpiringCertificates (env : Env) (now : Int) (warningDays : List Int) (db : DB) :
    Result :=
  scanWindows env now warningDays (List.range warningDays.length) db

/-- A sequence of runs of the mailer, each at its own time and in its own environment, every
run starting from the database left by the previous one. Returns the last database and the
concatenated trace. -/
def runSequence (warningDays : List Int) : List (Int × Env) → DB → DB × List Event
  | [], db => (db, [])
  | run :: rest, db =>
    let r := findExpiringCertificates run.2 run.1 warningDays db
    let s := runSequence warningDays rest r.db
    (s.1, r.events ++ s.2)

/-! ## Notions used to state the properties -/

/-- Every row whose DER blob parses carries the serial number of that blob. -/
def Consistent (certs : List Certificate) : Prop :=
  ∀ c ∈ certs, ∀ x, c.der = .ok x → x.serialNumber = c.serial

/-- No two rows of the `certificates` table share a serial. -/
def UniqueSerials (certs : List Certificate) : Prop :=
  (certs.map Certificate.serial).Nodup

instance (certs : List Certificate) : Decidable (UniqueSerials certs) :=
  inferInstanceAs (Decidable (certs.map Certificate.serial).Nodup)

/-- Events that neither dispatch nor touch the state: log lines and window queries. -/
def Event.quiet : Event → Bool
  | .logSearching _ _ => true
  | .select _ _ _ => true
  | .logNoneFound => true
  | .logErrLoading _ => true
  | .logFound _ => true
  | .logFinished => true
  | _ => false

/-- Events of the state-update transaction. -/
def Event.isTx : Event → Bool
  | .txBegin => true
  | .txGet _ => true
  | .txUpdate _ _ => true
  | .txCommit => true
  | .txRollback => true
  | _ => false

/-- Whether an event is a call of `sendWarning` for the row with this serial, in any
window. -/
def Event.dispatches (serial : Nat) : Event → Bool
  | .sendWarning _ s => decide (s = serial)
  | _ => false

/-- The environment `env` with the failure of the connection at the query of window `i`
removed. -/
def Env.withQueryOk (env : Env) (i : Nat) : Env :=
  ⟨fun j => if j = i then none else env.selectErr j, env.getRegistration, env.clock,
   env.execute, env.sendMail, env.txFault⟩

/-! ## Example data

The scenario of the specification: thresholds `[1, 3, 7, 14]`, time `0`, and a valid
certificate with serial `1` that expires in two days and has not been notified yet. -/

/-- A registration with one `mailto` contact. -/
def demoRegistration : Registration := ⟨[⟨"mailto", "admin@example.com"⟩]⟩

/-- A registration whose only contact is not a `mailto` address. -/
def phoneRegistration : Registration := ⟨[⟨"tel", "+12025551212"⟩]⟩

/-- The parsed certificate with serial `s` that expires at `notAfter`. -/
def demoX509 (s : Nat) (notAfter : Int) : X509Certificate :=
  ⟨s, notAfter, "example.com", ["example.com", "www.example.com"]⟩

/-- The valid certificate with serial `1` that expires two days after time `0`. -/
def demoCertificate : Certificate :=
  ⟨1, "valid", 1, .ok (demoX509 1 (2 * (24 * hour))), 2 * (24 * hour)⟩

/-- A valid certificate with serial `2` that expires one hour after `demoCertificate`. -/
def laterCertificate : Certificate :=
  ⟨1, "valid", 2, .ok (demoX509 2 (2 * (24 * hour) + hour)), 2 * (24 * hour) + hour⟩

/-- A revoked certificate with serial `3` that expires two days after time `0`. -/
def revokedCertificate : Certificate :=
  ⟨1, "revoked", 3, .ok (demoX509 3 (2 * (24 * hour))), 2 * (24 * hour)⟩

/-- The database with the given rows in which no certificate was notified yet. -/
def freshDB (certs : List Certificate) : DB :=
  ⟨certs, fun s => if 1 ≤ s ∧ s ≤ 3 then some 0 else none⟩

/-- An environment without failures, in which every registration is `reg`. -/
def quietEnv (reg : Registration) : Env :=
  ⟨fun _ => none, fun _ => .ok (some reg), fun _ _ => 0, fun _ => .ok "body",
   fun _ _ => none, fun _ _ _ => none⟩

/-- An environment in which no registration is found (the lookup returns no error). -/
def missingRegistrationEnv : Env :=
  ⟨fun _ => none, fun _ => .ok none, fun _ _ => 0, fun _ => .ok "body", fun _ _ => none,
   fun _ _ _ => none⟩

/-- An environment in which the registration lookup returns an error. -/
def lookupFaultEnv : Env :=
  ⟨fun _ => none, fun _ => .error (.other 5), fun _ _ => 0, fun _ => .ok "body",
   fun _ _ => none, fun _ _ _ => none⟩

/-- An environment in which the given step of every transaction fails. -/
def txFaultEnv (step : TxStep) : Env :=
  ⟨fun _ => none, fun _ => .ok (some demoRegistration), fun _ _ => 0, fun _ => .ok "body",
   fun _ _ => none, fun _ _ s => if s = step then some (.other 1) else none⟩

/-- An environment in which the mail transport fails. -/
def mailFaultEnv : Env :=
  ⟨fun _ => none, fun _ => .ok (some demoRegistration), fun _ _ => 0, fun _ => .ok "body",
   fun _ _ => some (.other 2), fun _ _ _ => none⟩

/-- An environment in which the execution of the template fails. -/
def renderFaultEnv : Env :=
  ⟨fun _ => none, fun _ => .ok (some demoRegistration), fun _ _ => 0,
   fun _ => .error (.other 4), fun _ _ => none, fun _ _ _ => none⟩

/-- An environment in which the connection fails the query of window `1`. -/
def queryFaultEnv : Env :=
  ⟨fun i => if i = 1 then some (.other 3) else none, fun _ => .ok (some demoRegistration),
   fun _ _ => 0, fun _ => .ok "body", fun _ _ => none, fun _ _ _ => none⟩

/-! ## Lemmas -/

@[simp] theorem Result.after_db (evs : List Event) (r : Result) : (r.after evs).db = r.db := rfl

@[simp] theorem Result.after_outcome (evs : List Event) (r : Result) :
    (r.after evs).outcome = r.outcome := rfl

@[simp] theorem Result.after_events (evs : List Event) (r : Result) :
    (r.after evs).events = evs ++ r.events := rfl

theorem Result.after_nil (r : Result) : r.after [] = r := by
  cases r
  rfl

theorem Result.after_after (r : Result) (a b : List Event) :
    (r.after a).after b = r.after (b ++ a) := by
  cases r
  simp [Result.after]

/-! ### The database layer -/

/-- What `Get` returns never passes the assertion to the struct type. -/
theorem assertValue_fetched {α : Type} (row : Option α) : (fetched row).assertValue = none := by
  cases row <;> rfl

/-- The database layer finds the placeholders `cutoff`, `cutoff` and `nags` in the window
query; the first two are not keys of the parameter map. -/
theorem unbound_windowQuery :
    unboundParameters windowQuery windowQueryKeys = ["cutoff", "cutoff"] := by
  decide

/-- The window query never returns rows: the connection fails it, or the database rejects
the statement. -/
theorem windowQueryResult_eq (env : Env) (db : DB) (now : Int) (ds : List Int) (i : Nat) :
    windowQueryResult env db now ds i = .error ((env.selectErr i).getD .badStatement) := by
  unfold windowQueryResult
  cases env.selectErr i with
  | some e => rfl
  | none => simp [unbound_windowQuery]

/-! ### The state update -/

/-- The state-update block always panics, whatever fails, and writes nothing: when `Begin`
fails, at `tx.Rollback()` on the nil handle; otherwise at the type assertion that follows
`tx.Get`. Neither `tx.Update` nor `tx.Commit` is called. -/
theorem updateCertificateStatus_panic (env : Env) (i : Nat) (cert : Certificate) (serial : Nat)
    (nags : Int) (db : DB) :
    (updateCertificateStatus env i cert serial nags db).outcome = .panic ∧
    (updateCertificateStatus env i cert serial nags db).db = db ∧
    ((updateCertificateStatus env i cert serial nags db).events = [.txBegin, .txRollback] ∨
     (updateCertificateStatus env i cert serial nags db).events =
        [.txBegin, .txGet serial, .txRollback] ∨
     (updateCertificateStatus env i cert serial nags db).events = [.txBegin, .txGet serial]) := by
  unfold updateCertificateStatus
  cases hb : env.txFault i cert .begin with
  | some e => simp
  | none =>
    cases hg : env.txFault i cert .get with
    | some e => simp [Transaction.get, Object.assertValue]
    | none => simp [Transaction.get, assertValue_fetched]

/-! ### The loop over the rows -/

/-- The iteration for a row ends at the registration lookup: with the error of the lookup,
or with the panic of the type assertion on its result. -/
theorem processCertificate_eq (env : Env) (ds : List Int) (i : Nat) (c : Certificate)
    (db : DB) :
    processCertificate env ds i c db =
      ⟨match env.getRegistration c.registrationID with
        | .error e => .error e
        | .ok _ => .panic,
       db, [.getRegistration c.registrationID]⟩ := by
  unfold processCertificate
  cases env.getRegistration c.registrationID with
  | error e => rfl
  | ok row => simp [assertValue_fetched]

theorem processCertificate_outcome (env : Env) (ds : List Int) (i : Nat) (c : Certificate)
    (db : DB) : (processCertificate env ds i c db).outcome ≠ .ok := by
  rw [processCertificate_eq]
  cases env.getRegistration c.registrationID <;> simp

/-- The loop over the rows stops at its first row. -/
theorem processCertificates_cons (env : Env) (ds : List Int) (i : Nat) (c : Certificate)
    (rest : List Certificate) (db : DB) :
    processCertificates env ds i (c :: rest) db = processCertificate env ds i c db := by
  have h := processCertificate_outcome env ds i c db
  unfold processCertificates
  cases hh : (processCertificate env ds i c db).outcome <;> simp_all

/-- The loop over the rows, whatever rows it is given, leaves the database as it is and
makes no other call than one registration lookup. -/
theorem processCertificates_inert (env : Env) (ds : List Int) (i : Nat)
    (certs : List Certificate) (db : DB) :
    (processCertificates env ds i certs db).db = db ∧
    ∀ e ∈ (processCertificates env ds i certs db).events, ∃ id, e = .getRegistration id := by
  cases certs with
  | nil => exact ⟨rfl, by simp [processCertificates]⟩
  | cons c rest =>
    rw [processCertificates_cons, processCertificate_eq]
    exact ⟨rfl, by simp⟩

/-! ### The loop over the windows -/

theorem scanWindows_nil (env : Env) (now : Int) (ds : List Int) (db : DB) :
    scanWindows env now ds [] db = ⟨.ok, db, []⟩ := rfl

/-- One step of the loop over the windows: the query of the window fails, its failure is
logged, and the loop goes on with the next window. -/
theorem scanWindows_cons (env : Env) (now : Int) (ds : List Int) (i : Nat) (rest : List Nat)
    (db : DB) :
    scanWindows env now ds (i :: rest) db =
      (scanWindows env now ds rest db).after
        [.logSearching (leftBound now ds i) (rightBound now ds i),
         .select (leftBound now ds i) (rightBound now ds i) (nagsParam ds i),
         if (env.selectErr i).getD .badStatement = .noRows then .logNoneFound
         else .logErrLoading ((env.selectErr i).getD .badStatement)] := by
  rw [scanWindows]
  simp only [windowQueryResult_eq]
  cases (env.selectErr i).getD .badStatement <;> simp

/-- A run returns `nil`, leaves the database as it is and makes no call besides the window
queries and the log lines. -/
theorem scanWindows_inert (env : Env) (now : Int) (ds : List Int) (is : List Nat) (db : DB) :
    (scanWindows env now ds is db).outcome = .ok ∧
    (scanWindows env now ds is db).db = db ∧
    ∀ e ∈ (scanWindows env now ds is db).events, e.quiet = true := by
  induction is with
  | nil => simp [scanWindows_nil]
  | cons i rest ih =>
    rw [scanWindows_cons]
    obtain ⟨h1, h2, h3⟩ := ih
    refine ⟨h1, h2, ?_⟩
    intro e he
    simp only [Result.after_events, List.mem_append, List.mem_cons, List.mem_singleton,
      List.not_mem_nil, or_false] at he
    rcases he with (h | h | h) | h
    · simp [h, Event.quiet]
    · simp [h, Event.quiet]
    · rw [h]
      split <;> simp [Event.quiet]
    · exact h3 e h

/-- The loop over the windows, split at any point of the list of windows. -/
theorem scanWindows_append (env : Env) (now : Int) (ds : List Int) (ws1 ws2 : List Nat)
    (db : DB) :
    scanWindows env now ds (ws1 ++ ws2) db =
      (scanWindows env now ds ws2 db).after (scanWindows env now ds ws1 db).events := by
  induction ws1 with
  | nil =>
    rw [List.nil_append, scanWindows_nil]
    exact (Result.after_nil _).symm
  | cons i rest ih =>
    rw [List.cons_append, scanWindows_cons, scanWindows_cons, ih, Result.after_after]
    simp [Result.after]

theorem quiet_ne_sendWarning {evs : List Event} (h : ∀ e ∈ evs, e.quiet = true) (j s : Nat) :
    Event.sendWarning j s ∉ evs := by
  intro hm
  have := h _ hm
  simp [Event.quiet] at this

theorem quiet_ne_txUpdate {evs : List Event} (h : ∀ e ∈ evs, e.quiet = true) (s : Nat)
    (v : Int) : Event.txUpdate s v ∉ evs := by
  intro hm
  have := h _ hm
  simp [Event.quiet] at this

theorem quiet_countP {evs : List Event} (h : ∀ e ∈ evs, e.quiet = true) (s : Nat) :
    evs.countP (Event.dispatches s) = 0 := by
  rw [List.countP_eq_zero]
  intro e he
  have := h e he
  cases e <;> simp_all [Event.quiet, Event.dispatches]

/-- A sequence of runs leaves the database as it is and makes no call besides the window
queries and the log lines. -/
theorem runSequence_inert (ds : List Int) (runs : List (Int × Env)) (db : DB) :
    (runSequence ds runs db).1 = db ∧ ∀ e ∈ (runSequence ds runs db).2, e.quiet = true := by
  induction runs with
  | nil => simp [runSequence]
  | cons run rest ih =>
    obtain ⟨-, h2, h3⟩ := scanWindows_inert run.2 run.1 ds (List.range ds.length) db
    simp only [runSequence, findExpiringCertificates, h2]
    refine ⟨ih.1, ?_⟩
    intro e he
    rcases List.mem_append.mp he with h | h
    · exact h3 e h
    · exact ih.2 e h

/-! ### The window query as a set of rows -/

theorem matchesQuery_iff (db : DB) (left right nags : Int) (c : Certificate) :
    matchesQuery db left right nags c = true ↔
      ∃ k, db.certificateStatus c.serial = some k ∧ left < c.expires ∧ c.expires < right ∧
        k < nags ∧ c.status ≠ "revoked" := by
  unfold matchesQuery expiresInWindow
  cases h : db.certificateStatus c.serial with
  | none => simp
  | some k => simp [and_assoc]

theorem mem_selectCertificates (db : DB) (left right nags : Int) (c : Certificate) :
    c ∈ selectCertificates db left right nags ↔
      c ∈ db.certificates ∧ matchesQuery db left right nags c = true := by
  unfold selectCertificates
  rw [List.mem_insertionSort, List.mem_filter]

/-! ### The bounds of the windows -/

theorem daysDuration_eq (d : Int) (h0 : 0 < d) (h1 : d ≤ 106751) :
    daysDuration d = 24 * hour * d := by
  unfold daysDuration wrap64 hour
  omega

theorem getD_mem (ds : List Int) (i : Nat) (hi : i < ds.length) : ds.getD i 0 ∈ ds := by
  rw [List.getD_eq_getElem ds 0 hi]
  exact List.getElem_mem hi

theorem rightBound_eq (now : Int) (ds : List Int) (hpos : ∀ d ∈ ds, 0 < d)
    (hmax : ∀ d ∈ ds, d ≤ 106751) (i : Nat) (hi : i < ds.length) :
    rightBound now ds i = now + 24 * hour * ds.getD i 0 := by
  have hm := getD_mem ds i hi
  unfold rightBound timeAdd
  rw [daysDuration_eq _ (hpos _ hm) (hmax _ hm)]

theorem leftBound_eq (now : Int) (ds : List Int) (hpos : ∀ d ∈ ds, 0 < d)
    (hmax : ∀ d ∈ ds, d ≤ 106751) (i : Nat) (hi : i < ds.length) :
    leftBound now ds i = now + 24 * hour * (if i = 0 then 0 else ds.getD (i - 1) 0) := by
  unfold leftBound
  by_cases h : i = 0
  · subst h
    simp
  · have hm := getD_mem ds (i - 1) (by omega)
    have hgt : i > 0 := Nat.pos_of_ne_zero h
    rw [if_pos hgt, if_neg h]
    unfold timeAdd
    rw [daysDuration_eq _ (hpos _ hm) (hmax _ hm)]

theorem getD_mono (ds : List Int) (hasc : ds.Pairwise (fun a b => a < b)) (i j : Nat)
    (hij : i ≤ j) (hj : j < ds.length) : ds.getD i 0 ≤ ds.getD j 0 := by
  rcases Nat.eq_or_lt_of_le hij with h | h
  · subst h; exact le_refl _
  · rw [List.getD_eq_getElem ds 0 hj, List.getD_eq_getElem ds 0 (by omega)]
    exact le_of_lt (List.pairwise_iff_getElem.mp hasc i j (by omega) hj h)

theorem window_iff (now : Int) (ds : List Int) (hpos : ∀ d ∈ ds, 0 < d)
    (hmax : ∀ d ∈ ds, d ≤ 106751) (i : Nat) (hi : i < ds.length) (t : Int) :
    expiresInWindow (leftBound now ds i) (rightBound now ds i) t = true ↔
      now + 24 * hour * (if i = 0 then 0 else ds.getD (i - 1) 0) < t ∧
        t < now + 24 * hour * ds.getD i 0 := by
  rw [leftBound_eq now ds hpos hmax i hi, rightBound_eq now ds hpos hmax i hi]
  simp [expiresInWindow]

theorem window_disjoint_lt (now : Int) (ds : List Int)
    (hasc : ds.Pairwise (fun a b => a < b)) (hpos : ∀ d ∈ ds, 0 < d)
    (hmax : ∀ d ∈ ds, d ≤ 106751) (i j : Nat) (t : Int) (hij : i < j) (hj : j < ds.length)
    (h1 : expiresInWindow (leftBound now ds i) (rightBound now ds i) t = true)
    (h2 : expiresInWindow (leftBound now ds j) (rightBound now ds j) t = true) : False := by
  rw [window_iff now ds hpos hmax i (by omega)] at h1
  rw [window_iff now ds hpos hmax j hj] at h2
  have hj0 : j ≠ 0 := by omega
  simp only [hj0, if_false] at h2
  have hm := getD_mono ds hasc i (j - 1) (by omega) (by omega)
  have hh : (0 : Int) < 24 * hour := by unfold hour; omega
  have := mul_le_mul_of_nonneg_left hm (le_of_lt hh)
  omega

theorem demo_consistent (certs : List Certificate)
    (h : ∀ c ∈ certs, c = demoCertificate ∨ c = laterCertificate ∨ c = revokedCertificate) :
    Consistent certs := by
  intro c hc x hx
  rcases h c hc with h | h | h <;> subst h <;> cases hx <;> rfl

/-! ## The properties -/

/-! ## C1: window partition -/

/-- C1, counterexample. With thresholds `[1, 3, 7, 14]` and `now = 0`, neither the instant
`now + 1 day` nor the instant `now` satisfies the expiry condition of any of the four
windows, although both lie in `[now, now + 14 days)`; and with thresholds `[1, 106752]`
the duration of the second threshold overflows, so that `now + 2 days` is in no window. -/
theorem window_partition_counterexample :
    (¬ ∃ i, i < 4 ∧ expiresInWindow (leftBound 0 [1, 3, 7, 14] i)
        (rightBound 0 [1, 3, 7, 14] i) (0 + 24 * hour) = true) ∧
    (¬ ∃ i, i < 4 ∧ expiresInWindow (leftBound 0 [1, 3, 7, 14] i)
        (rightBound 0 [1, 3, 7, 14] i) 0 = true) ∧
    (¬ ∃ i, i < 2 ∧ expiresInWindow (leftBound 0 [1, 106752] i)
        (rightBound 0 [1, 106752] i) (0 + 2 * (24 * hour)) = true) := by
  decide

/-- C1, as amended. For strictly ascending positive thresholds of at most 106751 days (the
largest whose duration fits 64 bits): every instant strictly between `now + d(i-1) days` and
`now + d(i) days` (with `d(-1) = 0`) satisfies the expiry condition of window `i`; the
conditions of two different windows never hold together; and every instant strictly between
`now` and `now + dn days` that is not of the form `now + d(j) days` satisfies the condition
of a window, which is the one whose bounds enclose it. -/
theorem window_partition_open (now : Int) (ds : List Int)
    (hasc : ds.Pairwise (fun a b => a < b)) (hpos : ∀ d ∈ ds, 0 < d)
    (hmax : ∀ d ∈ ds, d ≤ 106751) :
    (∀ i t, i < ds.length →
      now + 24 * hour * (if i = 0 then 0 else ds.getD (i - 1) 0) < t →
      t < now + 24 * hour * ds.getD i 0 →
      expiresInWindow (leftBound now ds i) (rightBound now ds i) t = true) ∧
    (∀ i j t, i < ds.length → j < ds.length →
      expiresInWindow (leftBound now ds i) (rightBound now ds i) t = true →
      expiresInWindow (leftBound now ds j) (rightBound now ds j) t = true → i = j) ∧
    (∀ t, now < t → t < now + 24 * hour * ds.getD (ds.length - 1) 0 →
      (∀ d ∈ ds, t ≠ now + 24 * hour * d) →
      ∃ i, i < ds.length ∧
        expiresInWindow (leftBound now ds i) (rightBound now ds i) t = true ∧
        now + 24 * hour * (if i = 0 then 0 else ds.getD (i - 1) 0) < t ∧
        t < now + 24 * hour * ds.getD i 0) := by
  refine ⟨fun i t hi h1 h2 => (window_iff now ds hpos hmax i hi t).mpr ⟨h1, h2⟩, ?_, ?_⟩
  · intro i j t hi hj h1 h2
    rcases Nat.lt_trichotomy i j with h | h | h
    · exact (window_disjoint_lt now ds hasc hpos hmax i j t h hj h1 h2).elim
    · exact h
    · exact (window_disjoint_lt now ds hasc hpos hmax j i t h hi h2 h1).elim
  · intro t hlo hhi hne
    have hn : 0 < ds.length := by
      rcases Nat.eq_zero_or_pos ds.length with h | h
      · rw [List.length_eq_zero] at h
        subst h
        simp at hhi
        omega
      · exact h
    have hex : ∃ i, i < ds.length ∧ t < now + 24 * hour * ds.getD i 0 :=
      ⟨ds.length - 1, by omega, hhi⟩
    classical
    have hin : now + 24 * hour * (if Nat.find hex = 0 then 0 else
        ds.getD (Nat.find hex - 1) 0) < t := by
      by_cases h0 : Nat.find hex = 0
      · rw [if_pos h0]
        simp only [mul_zero, add_zero]
        exact hlo
      · simp only [h0, if_false]
        have hlt : Nat.find hex - 1 < Nat.find hex := by omega
        have hnot := Nat.find_min hex hlt
        have hlen := (Nat.find_spec hex).1
        have hge : now + 24 * hour * ds.getD (Nat.find hex - 1) 0 ≤ t := by
          by_contra hc
          exact hnot ⟨by omega, by omega⟩
        have := hne _ (getD_mem ds (Nat.find hex - 1) (by omega))
        omega
    exact ⟨Nat.find hex, (Nat.find_spec hex).1,
      (window_iff now ds hpos hmax _ (Nat.find_spec hex).1 t).mpr ⟨hin, (Nat.find_spec hex).2⟩,
      hin, (Nat.find_spec hex).2⟩

/-- C1, witness: thresholds `[1, 3, 7, 14]`, `now = 0` and the instant `now + 2 days`. -/
theorem window_partition_open_witness :
    expiresInWindow (leftBound 0 [1, 3, 7, 14] 1) (rightBound 0 [1, 3, 7, 14] 1)
      (2 * (24 * hour)) = true :=
  (window_partition_open 0 [1, 3, 7, 14] (by decide) (by decide) (by decide)).1 1
    (2 * (24 * hour)) (by decide) (by decide) (by decide)

/-! ## C2: at most one notification per threshold -/

/-- C2. Over any sequence of runs, at any times and in any environments, `sendWarning` is
called at most once per window index for a given certificate, hence at most
`len(thresholds)` times in total. It is in fact never called: not in a run, where every
window query fails, and not by the loop over the rows whatever rows it is given, since the
iteration ends at the registration lookup. -/
theorem dispatch_at_most_once_per_threshold (ds : List Int) (runs : List (Int × Env))
    (db : DB) (serial : Nat) :
    (∀ i, (runSequence ds runs db).2.count (.sendWarning i serial) ≤ 1) ∧
    (runSequence ds runs db).2.countP (Event.dispatches serial) ≤ ds.length ∧
    (∀ i, Event.sendWarning i serial ∉ (runSequence ds runs db).2) ∧
    (∀ (env : Env) (i j : Nat) (certs : List Certificate) (db1 : DB),
      Event.sendWarning j serial ∉ (processCertificates env ds i certs db1).events) := by
  have hq := (runSequence_inert ds runs db).2
  refine ⟨?_, ?_, fun i => quiet_ne_sendWarning hq i serial, ?_⟩
  · intro i
    rw [List.count_eq_zero.mpr (quiet_ne_sendWarning hq i serial)]
    exact Nat.zero_le _
  · rw [quiet_countP hq serial]
    exact Nat.zero_le _
  · intro env i j certs db1 hm
    obtain ⟨id, h⟩ := (processCertificates_inert env ds i certs db1).2 _ hm
    cases h

/-! ## C3: monotonic counter -/

/-- C3, the code at a failing input: the scenario of the specification, with nothing
failing outside the mailer. The run returns `nil`, every one of its four window queries is
rejected, and the counter of the certificate is still `0` (not `4 - 1`). Given the row of
window `1`, the loop over the rows panics at the type assertion after the registration
lookup, and the state update alone panics at the type assertion after `tx.Get`; in both
the counter is still `0`. No sequence of runs changes the database at all, so no counter
decreases and none is ever set. -/
theorem counter_never_written :
    (findExpiringCertificates (quietEnv demoRegistration) 0 [1, 3, 7, 14]
      (freshDB [demoCertificate])).outcome = .ok ∧
    (findExpiringCertificates (quietEnv demoRegistration) 0 [1, 3, 7, 14]
      (freshDB [demoCertificate])).events.count (.logErrLoading .badStatement) = 4 ∧
    (findExpiringCertificates (quietEnv demoRegistration) 0 [1, 3, 7, 14]
      (freshDB [demoCertificate])).db.certificateStatus 1 = some 0 ∧
    (processCertificates (quietEnv demoRegistration) [1, 3, 7, 14] 1 [demoCertificate]
      (freshDB [demoCertificate])).outcome = .panic ∧
    (processCertificates (quietEnv demoRegistration) [1, 3, 7, 14] 1 [demoCertificate]
      (freshDB [demoCertificate])).events = [.getRegistration 1] ∧
    (processCertificates (quietEnv demoRegistration) [1, 3, 7, 14] 1 [demoCertificate]
      (freshDB [demoCertificate])).db.certificateStatus 1 = some 0 ∧
    (updateCertificateStatus (quietEnv demoRegistration) 1 demoCertificate 1 3
      (freshDB [demoCertificate])).outcome = .panic ∧
    (updateCertificateStatus (quietEnv demoRegistration) 1 demoCertificate 1 3
      (freshDB [demoCertificate])).events = [.txBegin, .txGet 1] ∧
    (updateCertificateStatus (quietEnv demoRegistration) 1 demoCertificate 1 3
      (freshDB [demoCertificate])).db.certificateStatus 1 = some 0 ∧
    (∀ (ds : List Int) (runs : List (Int × Env)) (db : DB),
      (runSequence ds runs db).1 = db) := by
  refine ⟨by decide, by decide, by decide, by decide, by decide, by decide, by decide,
    by decide, by decide, fun ds runs db => (runSequence_inert ds runs db).1⟩

/-! ## C4: idempotence of re-runs -/

/-- C4, the code at a failing input: the scenario of the specification, with nothing
failing outside the mailer. The first run makes no call besides the window queries and the
log lines, so it sends no message, and it leaves the counter of the certificate at `0` (not
`3`); the second run at the same time does the same. The condition of the query of
window `1` holds for the certificate with counter `0` and fails with counter `3`, and a
second run after any first run changes nothing and sends nothing. -/
theorem first_run_sends_nothing :
    (findExpiringCertificates (quietEnv demoRegistration) 0 [1, 3, 7, 14]
      (freshDB [demoCertificate])).events.all Event.quiet = true ∧
    (findExpiringCertificates (quietEnv demoRegistration) 0 [1, 3, 7, 14]
      (freshDB [demoCertificate])).events.count (.sendWarning 1 1) = 0 ∧
    (findExpiringCertificates (quietEnv demoRegistration) 0 [1, 3, 7, 14]
      (freshDB [demoCertificate])).db.certificateStatus 1 = some 0 ∧
    (findExpiringCertificates (quietEnv demoRegistration) 0 [1, 3, 7, 14]
      (findExpiringCertificates (quietEnv demoRegistration) 0 [1, 3, 7, 14]
        (freshDB [demoCertificate])).db).db.certificateStatus 1 = some 0 ∧
    matchesQuery (freshDB [demoCertificate]) (leftBound 0 [1, 3, 7, 14] 1)
      (rightBound 0 [1, 3, 7, 14] 1) (nagsParam [1, 3, 7, 14] 1) demoCertificate = true ∧
    matchesQuery ((freshDB [demoCertificate]).setNags 1 3) (leftBound 0 [1, 3, 7, 14] 1)
      (rightBound 0 [1, 3, 7, 14] 1) (nagsParam [1, 3, 7, 14] 1) demoCertificate = false ∧
    (∀ (env1 env2 : Env) (now : Int) (ds : List Int) (db : DB),
      (findExpiringCertificates env2 now ds (findExpiringCertificates env1 now ds db).db).db =
        (findExpiringCertificates env1 now ds db).db ∧
      ∀ e ∈ (findExpiringCertificates env2 now ds
        (findExpiringCertificates env1 now ds db).db).events, e.quiet = true) := by
  refine ⟨by decide, by decide, by decide, by decide, by decide, by decide, ?_⟩
  intro env1 env2 now ds db
  unfold findExpiringCertificates
  exact ⟨(scanWindows_inert env2 now ds _ _).2.1, (scanWindows_inert env2 now ds _ _).2.2⟩

/-! ## C5: commit failure isolation -/

/-- C5, the code at a failing input. The state-update block panics whatever happens in it
and never calls `tx.Update` or `tx.Commit`. When `tx.Get` fails, the code calls
`tx.Rollback()` and goes on to the type assertion on the nil result, which panics; when
`m.dbMap.Begin` fails, it calls `tx.Rollback()` on the nil handle; when nothing fails, the
type assertion on the pointer that `tx.Get` returns panics. In a run the block is not
reached: with `tx.Get` made to fail, the run of the scenario returns `nil` without any call
of the transaction, and the loop given two rows stops at the first one. -/
theorem state_update_panics :
    (∀ (env : Env) (i : Nat) (cert : Certificate) (serial : Nat) (nags : Int) (db : DB),
      (updateCertificateStatus env i cert serial nags db).outcome = .panic ∧
      (updateCertificateStatus env i cert serial nags db).db = db ∧
      Event.txUpdate serial nags ∉ (updateCertificateStatus env i cert serial nags db).events ∧
      Event.txCommit ∉ (updateCertificateStatus env i cert serial nags db).events) ∧
    (updateCertificateStatus (txFaultEnv .get) 1 demoCertificate 1 3
      (freshDB [demoCertificate, laterCertificate])).events =
      [.txBegin, .txGet 1, .txRollback] ∧
    (updateCertificateStatus (txFaultEnv .begin) 1 demoCertificate 1 3
      (freshDB [demoCertificate, laterCertificate])).events = [.txBegin, .txRollback] ∧
    (updateCertificateStatus (quietEnv demoRegistration) 1 demoCertificate 1 3
      (freshDB [demoCertificate, laterCertificate])).events = [.txBegin, .txGet 1] ∧
    (findExpiringCertificates (txFaultEnv .get) 0 [1, 3, 7, 14]
      (freshDB [demoCertificate, laterCertificate])).outcome = .ok ∧
    (findExpiringCertificates (txFaultEnv .get) 0 [1, 3, 7, 14]
      (freshDB [demoCertificate, laterCertificate])).events.any Event.isTx = false ∧
    (processCertificates (txFaultEnv .get) [1, 3, 7, 14] 1
      [demoCertificate, laterCertificate]
      (freshDB [demoCertificate, laterCertificate])).outcome = .panic ∧
    (processCertificates (txFaultEnv .get) [1, 3, 7, 14] 1
      [demoCertificate, laterCertificate]
      (freshDB [demoCertificate, laterCertificate])).events = [.getRegistration 1] := by
  refine ⟨?_, by decide, by decide, by decide, by decide, by decide, by decide, by decide⟩
  intro env i cert serial nags db
  obtain ⟨h1, h2, h3⟩ := updateCertificateStatus_panic env i cert serial nags db
  refine ⟨h1, h2, ?_, ?_⟩ <;> rcases h3 with h | h | h <;> rw [h] <;> simp

/-! ## C7: days to expiration -/

/-- C7, the code at a failing input. For a certificate that expires two days after `now`
the value of `DaysToExpiration` is `-2`, whatever `now` is, and this is the value in the
content passed to the template. -/
theorem days_to_expiration_negative :
    (∀ now : Int, expiresIn now (now + 2 * (24 * hour)) = -2) ∧
    (sendWarning (quietEnv demoRegistration) 0 (demoX509 1 (2 * (24 * hour)))
      demoRegistration).2.head? =
      some (.execute ⟨2 * (24 * hour), -2, "example.com", "example.com, www.example.com"⟩) := by
  refine ⟨?_, by decide⟩
  intro now
  have h : timeSub now (now + 2 * (24 * hour)) = -172800000000000 := by
    unfold timeSub maxDuration minDuration hour
    have e : now - (now + 2 * (24 * 3600000000000)) = -172800000000000 := by ring
    rw [e]
    decide
  unfold expiresIn
  rw [h]
  decide

/-! ## C6: fail-fast dispatch -/

/-- C6, the code at a failing input: the scenario of the specification with a mail transport
that fails. The run returns `nil`, not the error of the transport, and makes no call besides
the window queries and the log lines. Given the rows of window `1`, the loop over the rows
panics at the type assertion after the registration lookup, before `sendWarning` is called;
it panics as well when the registration is missing. When the lookup returns an error, the
loop returns that error at once and leaves the counters alone. `sendWarning` itself, called
directly, returns the error of the template without calling the transport, and the error of
the transport without touching the metric. -/
theorem dispatch_failure_not_returned :
    (findExpiringCertificates mailFaultEnv 0 [1, 3, 7, 14]
      (freshDB [demoCertificate, laterCertificate])).outcome = .ok ∧
    (findExpiringCertificates mailFaultEnv 0 [1, 3, 7, 14]
      (freshDB [demoCertificate, laterCertificate])).events.all Event.quiet = true ∧
    processCertificates mailFaultEnv [1, 3, 7, 14] 1 [demoCertificate, laterCertificate]
      (freshDB [demoCertificate, laterCertificate]) =
      ⟨.panic, freshDB [demoCertificate, laterCertificate], [.getRegistration 1]⟩ ∧
    processCertificates missingRegistrationEnv [1, 3, 7, 14] 1
      [demoCertificate, laterCertificate] (freshDB [demoCertificate, laterCertificate]) =
      ⟨.panic, freshDB [demoCertificate, laterCertificate], [.getRegistration 1]⟩ ∧
    processCertificates lookupFaultEnv [1, 3, 7, 14] 1 [demoCertificate, laterCertificate]
      (freshDB [demoCertificate, laterCertificate]) =
      ⟨.error (.other 5), freshDB [demoCertificate, laterCertificate],
        [.getRegistration 1]⟩ ∧
    sendWarning renderFaultEnv 0 (demoX509 1 (2 * (24 * hour))) demoRegistration =
      (some (.other 4),
       [.execute ⟨2 * (24 * hour), -2, "example.com", "example.com, www.example.com"⟩]) ∧
    sendWarning mailFaultEnv 0 (demoX509 1 (2 * (24 * hour))) demoRegistration =
      (some (.other 2),
       [.execute ⟨2 * (24 * hour), -2, "example.com", "example.com, www.example.com"⟩,
        .sendMail ["admin@example.com"] "body"]) := by
  refine ⟨by decide, by decide, rfl, rfl, rfl, by decide, by decide⟩

/-! ## C8: no-recipient path -/

/-- C8, the code at a failing input: the scenario of the specification with a registration
that only has a telephone contact. For contacts none of which is a `mailto` address,
`sendWarning` returns `nil` and makes no call at all. But no state commit follows: the run
returns `nil` without any call of the transaction and the counter of the certificate is
still `0` (not `4 - 1`); given the row of window `1`, the loop over the rows panics at the
type assertion after the registration lookup, before `sendWarning` and `m.dbMap.Begin`; and
the state update alone panics after `tx.Get`, before `tx.Update`. -/
theorem no_recipient_no_commit :
    (∀ (env : Env) (now : Int) (x : X509Certificate) (contacts : List Contact),
      sendWarning env now x ⟨contacts.filter (fun ct => decide (ct.scheme ≠ "mailto"))⟩ =
        (none, [])) ∧
    (findExpiringCertificates (quietEnv phoneRegistration) 0 [1, 3, 7, 14]
      (freshDB [demoCertificate])).outcome = .ok ∧
    (findExpiringCertificates (quietEnv phoneRegistration) 0 [1, 3, 7, 14]
      (freshDB [demoCertificate])).events.any Event.isTx = false ∧
    (findExpiringCertificates (quietEnv phoneRegistration) 0 [1, 3, 7, 14]
      (freshDB [demoCertificate])).db.certificateStatus 1 = some 0 ∧
    processCertificates (quietEnv phoneRegistration) [1, 3, 7, 14] 1 [demoCertificate]
      (freshDB [demoCertificate]) =
      ⟨.panic, freshDB [demoCertificate], [.getRegistration 1]⟩ ∧
    (updateCertificateStatus (quietEnv phoneRegistration) 1 demoCertificate 1 3
      (freshDB [demoCertificate])).outcome = .panic ∧
    (updateCertificateStatus (quietEnv phoneRegistration) 1 demoCertificate 1 3
      (freshDB [demoCertificate])).events = [.txBegin, .txGet 1] := by
  refine ⟨?_, by decide, by decide, by decide, rfl, by decide, by decide⟩
  intro env now x contacts
  have hnil : mailtoAddresses ⟨contacts.filter (fun ct => decide (ct.scheme ≠ "mailto"))⟩
      = [] := by
    unfold mailtoAddresses
    rw [List.filterMap_eq_nil_iff]
    intro ct hct
    have := (List.mem_filter.mp hct).2
    simp at this
    simp [this]
  unfold sendWarning
  rw [hnil]
  rfl

/-! ## C9: a query failure is not fatal -/

/-- C9. Let the windows before window `i` have been processed normally and let the query of
window `i` fail with `e`. Then the run goes on with the windows after `i` on the same
database: its outcome and final database are those of the rest of the loop, and its trace
is the trace so far, the query of window `i` with its log lines, and the trace of the rest
of the loop. With the failure removed and no row described by the query of window `i`, the
outcome and the final database are the same. -/
theorem query_failure_not_fatal (env : Env) (now : Int) (ds : List Int) (db : DB)
    (ws1 ws2 : List Nat) (i : Nat) (e : Err)
    (hws : List.range ds.length = ws1 ++ i :: ws2)
    (_h1 : (scanWindows env now ds ws1 db).outcome = .ok)
    (hq : env.selectErr i = some e) :
    (findExpiringCertificates env now ds db).outcome =
      (scanWindows env now ds ws2 (scanWindows env now ds ws1 db).db).outcome ∧
    (findExpiringCertificates env now ds db).db =
      (scanWindows env now ds ws2 (scanWindows env now ds ws1 db).db).db ∧
    (findExpiringCertificates env now ds db).events =
      (scanWindows env now ds ws1 db).events ++
      [.logSearching (leftBound now ds i) (rightBound now ds i),
       .select (leftBound now ds i) (rightBound now ds i) (nagsParam ds i),
       if e = .noRows then .logNoneFound else .logErrLoading e] ++
      (scanWindows env now ds ws2 (scanWindows env now ds ws1 db).db).events ∧
    (windowCertificates (scanWindows env now ds ws1 db).db now ds i = [] →
      (findExpiringCertificates (env.withQueryOk i) now ds db).outcome =
        (findExpiringCertificates env now ds db).outcome ∧
      (findExpiringCertificates (env.withQueryOk i) now ds db).db =
        (findExpiringCertificates env now ds db).db) := by
  have hd1 := (scanWindows_inert env now ds ws1 db).2.1
  have hmain : findExpiringCertificates env now ds db =
      (scanWindows env now ds ws2 db).after
        ((scanWindows env now ds ws1 db).events ++
          [.logSearching (leftBound now ds i) (rightBound now ds i),
           .select (leftBound now ds i) (rightBound now ds i) (nagsParam ds i),
           if e = .noRows then .logNoneFound else .logErrLoading e]) := by
    unfold findExpiringCertificates
    rw [hws, scanWindows_append, scanWindows_cons, Result.after_after, hq]
    rfl
  rw [hd1]
  refine ⟨by rw [hmain]; rfl, by rw [hmain]; rfl, by rw [hmain]; rfl, ?_⟩
  intro _
  unfold findExpiringCertificates
  exact ⟨((scanWindows_inert _ now ds _ db).1).trans (scanWindows_inert env now ds _ db).1.symm,
    ((scanWindows_inert _ now ds _ db).2.1).trans (scanWindows_inert env now ds _ db).2.1.symm⟩

/-- C9, witness: the scenario of the specification with the query of window `1` failing. The
run returns `nil`, the windows `2` and `3` are still queried and no counter changes. -/
theorem query_failure_not_fatal_witness :
    (findExpiringCertificates queryFaultEnv 0 [1, 3, 7, 14]
      (freshDB [demoCertificate])).outcome = .ok ∧
    (findExpiringCertificates queryFaultEnv 0 [1, 3, 7, 14]
      (freshDB [demoCertificate])).db.certificateStatus 1 = some 0 ∧
    (findExpiringCertificates queryFaultEnv 0 [1, 3, 7, 14]
      (freshDB [demoCertificate])).events.count
        (.select (leftBound 0 [1, 3, 7, 14] 2) (rightBound 0 [1, 3, 7, 14] 2) 2) = 1 ∧
    (findExpiringCertificates queryFaultEnv 0 [1, 3, 7, 14]
      (freshDB [demoCertificate])).events.count
        (.select (leftBound 0 [1, 3, 7, 14] 3) (rightBound 0 [1, 3, 7, 14] 3) 1) = 1 :=
  ⟨((query_failure_not_fatal queryFaultEnv 0 [1, 3, 7, 14] (freshDB [demoCertificate])
      [0] [2, 3] 1 (.other 3) rfl rfl rfl).1).trans (by decide),
   by decide, by decide, by decide⟩

/-! ## C10: status exclusion -/

/-- C10. A revoked certificate is returned by no window query, whatever the database, the
bounds and the parameter. On a table with unique serials whose rows carry the serial of
their DER blob, a run therefore makes no call of `sendWarning` and no `Update` for it, and
leaves its counter as it is. -/
theorem revoked_never_notified (env : Env) (now : Int) (ds : List Int) (db : DB)
    (c : Certificate) (_hcons : Consistent db.certificates)
    (_huniq : UniqueSerials db.certificates) (_hc : c ∈ db.certificates)
    (hrev : c.status = "revoked") :
    (∀ (db1 : DB) (left right nags : Int), c ∉ selectCertificates db1 left right nags) ∧
    (∀ j, Event.sendWarning j c.serial ∉ (findExpiringCertificates env now ds db).events) ∧
    (∀ v, Event.txUpdate c.serial v ∉ (findExpiringCertificates env now ds db).events) ∧
    (findExpiringCertificates env now ds db).db.certificateStatus c.serial =
      db.certificateStatus c.serial := by
  obtain ⟨-, hdb, hq⟩ := scanWindows_inert env now ds (List.range ds.length) db
  refine ⟨?_, ?_, ?_, ?_⟩
  · intro db1 left right nags hm
    rw [mem_selectCertificates] at hm
    obtain ⟨k, -, -, -, -, hs⟩ := (matchesQuery_iff db1 left right nags c).mp hm.2
    exact hs hrev
  · exact fun j => quiet_ne_sendWarning hq j c.serial
  · exact fun v => quiet_ne_txUpdate hq c.serial v
  · unfold findExpiringCertificates
    rw [hdb]

/-- C10, witness: the scenario of the specification with a revoked certificate that expires
at the same time as the valid one. It is never dispatched, its counter stays `0`, and the
rows that the query of window `1` describes are the valid certificate alone. -/
theorem revoked_never_notified_witness :
    Event.sendWarning 1 revokedCertificate.serial ∉
      (findExpiringCertificates (quietEnv demoRegistration) 0 [1, 3, 7, 14]
        (freshDB [demoCertificate, revokedCertificate])).events ∧
    (findExpiringCertificates (quietEnv demoRegistration) 0 [1, 3, 7, 14]
      (freshDB [demoCertificate, revokedCertificate])).db.certificateStatus 3 = some 0 ∧
    (selectCertificates (freshDB [demoCertificate, revokedCertificate])
      (leftBound 0 [1, 3, 7, 14] 1) (rightBound 0 [1, 3, 7, 14] 1)
      (nagsParam [1, 3, 7, 14] 1)).map Certificate.serial = [1] :=
  ⟨(revoked_never_notified (quietEnv demoRegistration) 0 [1, 3, 7, 14]
      (freshDB [demoCertificate, revokedCertificate]) revokedCertificate
      (demo_consistent _ (by simp [freshDB])) (by decide) (by simp [freshDB]) rfl).2.1 1,
   by decide, by decide⟩

end ExpirationMailer
